import Mathlib

/-!
Verification of the light-preset component (`src/__init__.py`).

The Python module drives groups of lights from the value of a preset
selector entity: it merges preset default attributes with per-light
overrides, reacts to selector state changes, intercepts the generic
light turn-on service, and exposes group on/off/toggle services.

The embedding below translates the module's pure data flow into Lean:

* Python dicts of light attributes are denoted by `AttrDict`, total
  functions from key to `Option Value` (a missing key is `none`).
* The hub's state store (`hass.states`) is `States`, a function from
  entity id to the entity's current state string, `none` when the
  entity has no recorded state.
* Service calls emitted towards the light service become `Cmd` values;
  a handler run is a `HandlerResult`: the list of emitted commands
  together with the Python exception that escaped, if any.
* Exceptions raised by the Python code (`None.state`, subscripting
  `None`, indexing an empty list) are modelled by `PyError`.
-/

namespace LightPresets

/-- Attribute values appearing in preset dictionaries and service data:
numbers, strings, numeric lists (e.g. `hs_color`), and lists of entity
ids (the `entity_id` field of a service call). -/
inductive Value where
  | num (q : ℚ)
  | str (s : String)
  | arr (l : List ℚ)
  | strList (l : List String)
deriving DecidableEq, Repr

/-- A Python dict with string keys, denoted extensionally. -/
abbrev AttrDict := String → Option Value

/-- The hub's state store: entity id to current state string. -/
abbrev States := String → Option String

/-- The empty dict. -/
def emptyDict : AttrDict := fun _ => none

/-- Builds a concrete dict from an association list (first binding wins). -/
def dictOf (l : List (String × Value)) : AttrDict :=
  fun k => (l.find? (fun p => p.1 == k)).map (fun p => p.2)

/-- Builds a concrete state store from an association list. -/
def statesOf (l : List (String × String)) : States :=
  fun k => (l.find? (fun p => p.1 == k)).map (fun p => p.2)

/-- `LIGHT_ATTRIBUTES` from the source: the recognized light attribute keys. -/
def LIGHT_ATTRIBUTES : List String :=
  ["brightness", "kelvin", "rgb_color", "white_value", "color_temp",
   "color_name", "brightness_pct", "effect", "hs_color"]

/-- `COLOR_ATTRIBUTES` from the source: the mutually exclusive color keys. -/
def COLOR_ATTRIBUTES : List String :=
  ["kelvin", "rgb_color", "white_value", "color_temp", "color_name", "hs_color"]

/-- `DEFAULT_STATE` from the source. -/
def DEFAULT_STATE : String := "on_if_anything_on"

/-- The `sets_color` lambda inside `merge_light_attributes`:
does the dict bind at least one color attribute key? -/
def sets_color (attr : AttrDict) : Bool :=
  COLOR_ATTRIBUTES.any (fun k => (attr k).isSome)

/-- The dict comprehension dropping color keys from `defaults`
(`\x7bk: v for (k, v) in defaults.items() if k not in COLOR_ATTRIBUTES\x7d`). -/
def dropColorKeys (d : AttrDict) : AttrDict :=
  fun k => if COLOR_ATTRIBUTES.contains k then none else d k

/-- Python dict merge `\x7b**d, **o\x7d`: keys of `o` win. -/
def dictUnion (d o : AttrDict) : AttrDict :=
  fun k => match o k with
    | some v => some v
    | none => d k

/-- `merge_light_attributes` from the source. -/
def merge_light_attributes (defaults overrides : AttrDict) : AttrDict :=
  if sets_color defaults && sets_color overrides then
    dictUnion (dropColorKeys defaults) overrides
  else
    dictUnion defaults overrides

/-! Spec-side formulations, written from the specification's words,
independently of the source translation above. -/

/-- Spec side: "contains at least one key from the color key set". -/
def spec_has_color_key (d : AttrDict) : Prop :=
  ∃ k ∈ COLOR_ATTRIBUTES, (d k).isSome = true

instance (d : AttrDict) : Decidable (spec_has_color_key d) :=
  inferInstanceAs (Decidable (∃ k ∈ COLOR_ATTRIBUTES, (d k).isSome = true))

/-- Spec side: "shallow merge with overrides keys winning". -/
def spec_shallow_merge (d o : AttrDict) : AttrDict :=
  fun k => if (o k).isSome then o k else d k

/-- Spec side: "defaults with all color keys removed". -/
def spec_remove_colors (d : AttrDict) : AttrDict :=
  fun k => if k ∈ COLOR_ATTRIBUTES then none else d k

/-! ## Group configuration and registry (`LightGroupsConfig`) -/

/-- A preset spec: the per-preset dict, mapping `"defaults"` and light
ids to attribute dicts. -/
abbrev PresetSpec := String → Option AttrDict

/-- One group definition from the validated configuration: the slug id,
the preset selector entity id (the `preset` key), the member lights and
the preset mapping. -/
structure Group where
  id : String
  preset : String
  lights : List String
  presets : String → Option PresetSpec

/-- The configuration is an ordered mapping of group id to group; the
embedding keeps it as the ordered list of groups. -/
abbrev Config := List Group

/-- Builds a concrete preset spec from an association list. -/
def specOf (l : List (String × AttrDict)) : PresetSpec :=
  fun k => (l.find? (fun p => p.1 == k)).map (fun p => p.2)

/-- Builds a concrete presets table from an association list. -/
def presetsOf (l : List (String × PresetSpec)) : String → Option PresetSpec :=
  fun k => (l.find? (fun p => p.1 == k)).map (fun p => p.2)

/-- `LightGroupsConfig.get_group_by_preset_id`: all groups whose
`preset` equals the given entity id. The entity id is optional because
`event.data.get("entity_id")` may be absent; a group's `preset` is a
string and never equals an absent id. -/
def get_group_by_preset_id (cfg : Config) (entity_id : Option String) : List Group :=
  cfg.filter (fun g => entity_id == some g.preset)

/-- `LightGroupsConfig.get_group_by_name`: first group whose id equals
the name, `none` when there is no match. -/
def get_group_by_name (cfg : Config) (name : String) : Option Group :=
  cfg.find? (fun g => g.id == name)

/-- `LightGroupsConfig.get_group_by_light`: first group containing the
light, `none` when there is no match. -/
def get_group_by_light (cfg : Config) (light : String) : Option Group :=
  cfg.find? (fun g => g.lights.contains light)

/-! ## Light state predicates -/

/-- The raw Python value of `is_light_on`: `light_state and
light_state.state == STATE_ON` evaluates to `None` when the entity has
no recorded state, and to the boolean comparison otherwise. -/
def is_light_on_raw (states : States) (light : String) : Option Bool :=
  (states light).map (fun s => s == "on")

/-- Python truthiness of the raw value (`None` is falsy). -/
def truthy : Option Bool → Bool
  | none => false
  | some b => b

/-- `is_light_on` as used in boolean contexts by every caller. -/
def is_light_on (states : States) (light : String) : Bool :=
  truthy (is_light_on_raw states light)

/-- `is_anything_on`: any of the group's lights is on. -/
def is_anything_on (states : States) (group : Group) : Bool :=
  group.lights.any (fun l => is_light_on states l)

/-! ## Effective settings (`get_light_settings`) -/

/-- Python exceptions raised by the module's code paths. -/
inductive PyError where
  /-- `AttributeError`: reading `.state` of `None` when the preset
  selector entity has no recorded state. -/
  | attributeError
  /-- `TypeError`: subscripting `None` after a failed group lookup, or
  arithmetic on a non-numeric attribute value. -/
  | typeError
  /-- `IndexError`: `light[0]` on an empty `entity_id` list. -/
  | indexError
deriving DecidableEq, Repr

/-- The result of `get_light_settings`: the merged attributes with the
reserved `state` key removed, and the raw value popped from the
`state` key (a `Value`, not validated against any enumeration). -/
structure LightSettings where
  attributes : AttrDict
  state : Value

/-- Python `str.lower()` on the selector value (character-wise
lower-casing of the underlying character list). -/
def pyLower (s : String) : String := ⟨s.data.map Char.toLower⟩

/-- The merged attribute dict computed inside `get_light_settings`:
resolve the selector value, look up the preset spec (missing preset
name yields the empty spec), and merge defaults with the per-light
override dict. `none` models the `AttributeError` raised when the
selector entity has no recorded state. -/
def preset_merged (states : States) (group : Group) (entity_id : String) :
    Option AttrDict :=
  match states group.preset with
  | none => none
  | some selected =>
    let preset := (group.presets (pyLower selected)).getD (fun _ => none)
    let defaults := (preset "defaults").getD emptyDict
    let overrides := (preset entity_id).getD emptyDict
    some (merge_light_attributes defaults overrides)

/-- `get_light_settings`: pop the `state` key from the merged dict
(defaulting to `DEFAULT_STATE`) and return attributes plus meta state. -/
def get_light_settings (states : States) (group : Group) (entity_id : String) :
    Option LightSettings :=
  (preset_merged states group entity_id).map (fun merged =>
    { attributes := fun k => if k = "state" then none else merged k
      state := (merged "state").getD (.str DEFAULT_STATE) })

/-! ## Emitted commands and handler results -/

/-- Calls emitted towards the external light service. -/
inductive Cmd where
  /-- `turn_on_light`: `light.turn_on` for one light with attributes. -/
  | turnOn (light : String) (attributes : AttrDict)
  /-- `turn_off_light`: `light.turn_off` for one light. -/
  | turnOff (light : String)
  /-- `group_lights_turn_off`: one batched `light.turn_off` carrying
  the whole light id list. -/
  | turnOffList (lights : List String)

/-- A handler run: the commands emitted before returning or raising,
and the exception that escaped the handler, if any. -/
structure HandlerResult where
  cmds : List Cmd
  err : Option PyError

/-- Runs a per-light body over the light list, collecting emitted
commands and stopping at the first exception, as the Python `for`
loop does. -/
def runLights (f : String → Except PyError (Option Cmd)) :
    List String → HandlerResult
  | [] => ⟨[], none⟩
  | l :: ls =>
    match f l with
    | .error e => ⟨[], some e⟩
    | .ok oc =>
      let rest := runLights f ls
      ⟨oc.toList ++ rest.cmds, rest.err⟩

/-! ## Reaction handlers -/

/-- Loop body of `group_lights_update` for one light: settings are
computed (raising `AttributeError` when the selector has no state);
an on light is turned off when the meta state is `"off"` and turned on
with the resolved attributes otherwise; an off light is turned on
exactly when the meta state is `"on"`, or `"on_if_anything_on"` while
something in the group is on. -/
def update_light (states : States) (anything_on : Bool) (group : Group)
    (light : String) : Except PyError (Option Cmd) :=
  match get_light_settings states group light with
  | none => .error .attributeError
  | some settings =>
    if is_light_on states light then
      if settings.state == Value.str "off" then
        .ok (some (.turnOff light))
      else
        .ok (some (.turnOn light settings.attributes))
    else if settings.state == Value.str "on" ||
        (settings.state == Value.str "on_if_anything_on" && anything_on) then
      .ok (some (.turnOn light settings.attributes))
    else
      .ok none

/-- `group_lights_update`: compute `anything_on` once, then run the
per-light body over the group's lights. -/
def group_lights_update (states : States) (group : Group) : HandlerResult :=
  runLights (update_light states (is_anything_on states group) group)
    group.lights

/-- The Python expression `attributes.get("brightness", 255) *
service_params["preset_brightness_pct"] / 100`: defined only when both
operands are numeric; any other combination raises a `TypeError`
before the assignment completes. -/
def scaled_brightness (base pct : Value) : Option Value :=
  match base, pct with
  | .num b, .num p => some (.num (b * p / 100))
  | _, _ => none

/-- Loop body of `group_lights_turn_on` for one light: settings are
computed; when the call carries `preset_brightness_pct` the brightness
attribute is overwritten with the scaled value; the turn-on command is
emitted exactly when the meta state is not `"off"`. -/
def turn_on_light_settings (states : States) (group : Group)
    (pct : Option Value) (light : String) : Except PyError (Option Cmd) :=
  match get_light_settings states group light with
  | none => .error .attributeError
  | some settings =>
    match pct with
    | none =>
      if settings.state == Value.str "off" then .ok none
      else .ok (some (.turnOn light settings.attributes))
    | some p =>
      let base := (settings.attributes "brightness").getD (.num 255)
      match scaled_brightness base p with
      | none => .error .typeError
      | some b =>
        let attrs : AttrDict :=
          fun k => if k = "brightness" then some b else settings.attributes k
        if settings.state == Value.str "off" then .ok none
        else .ok (some (.turnOn light attrs))

/-- `group_lights_turn_on`: run the per-light body over the group's
lights; `pct` is the optional `preset_brightness_pct` service param. -/
def group_lights_turn_on (states : States) (group : Group)
    (pct : Option Value) : HandlerResult :=
  runLights (turn_on_light_settings states group pct) group.lights

/-- `group_lights_turn_off`: one batched turn-off for the full list. -/
def group_lights_turn_off (group : Group) : HandlerResult :=
  ⟨[.turnOffList group.lights], none⟩

/-! ## Service handlers (group commands) -/

/-- The service call data used by the three group commands: the
`light_group` name and the optional `preset_brightness_pct` value. -/
structure CallData where
  light_group : String
  preset_brightness_pct : Option Value

/-- `service_light_on`: look up the group by name; a failed lookup
yields `None` and the subsequent `group["lights"]` subscript raises a
`TypeError`; otherwise run the group turn-on with the call's params. -/
def service_light_on (states : States) (cfg : Config) (data : CallData) :
    HandlerResult :=
  match get_group_by_name cfg data.light_group with
  | none => ⟨[], some .typeError⟩
  | some g => group_lights_turn_on states g data.preset_brightness_pct

/-- `service_light_off`: look up the group by name; a failed lookup
raises a `TypeError` inside `group_lights_turn_off`; otherwise emit
the batched turn-off. -/
def service_light_off (_states : States) (cfg : Config) (data : CallData) :
    HandlerResult :=
  match get_group_by_name cfg data.light_group with
  | none => ⟨[], some .typeError⟩
  | some g => group_lights_turn_off g

/-- `service_light_toggle`: look up the group by name (failed lookup
raises a `TypeError` inside `is_anything_on`); turn the group off when
anything is on, otherwise turn it on with no service params. -/
def service_light_toggle (states : States) (cfg : Config) (data : CallData) :
    HandlerResult :=
  match get_group_by_name cfg data.light_group with
  | none => ⟨[], some .typeError⟩
  | some g =>
    if is_anything_on states g then group_lights_turn_off g
    else group_lights_turn_on states g none

/-! ## The preset-changed reaction (`on_state_changed`) -/

/-- The slice of a `state_changed` event the handler reads: the subject
entity id (possibly absent from the event data) and whether the event
carries a defined (truthy) `old_state`. -/
structure Event where
  entity_id : Option String
  has_old_state : Bool

/-- Runs the per-group update over the matching groups, concatenating
emitted commands and stopping at the first escaped exception, as the
Python `for` loop does. -/
def runGroups (f : Group → HandlerResult) : List Group → HandlerResult
  | [] => ⟨[], none⟩
  | g :: gs =>
    let r := f g
    match r.err with
    | some e => ⟨r.cmds, some e⟩
    | none =>
      let rest := runGroups f gs
      ⟨r.cmds ++ rest.cmds, rest.err⟩

/-- `on_state_changed`: when some group's preset selector matches the
event's entity id and the event has a defined old state, update every
matching group; otherwise do nothing. -/
def on_state_changed (states : States) (cfg : Config) (ev : Event) :
    HandlerResult :=
  let groups := get_group_by_preset_id cfg ev.entity_id
  if !groups.isEmpty && ev.has_old_state then
    runGroups (group_lights_update states) groups
  else
    ⟨[], none⟩

/-! ## The intercepted light turn-on handler (`turn_on_override`) -/

/-- `event.data.get("entity_id")` followed by the list special-case:
a list value is replaced by its first element (`IndexError` on an
empty list); any other value, including an absent one, is kept. -/
def extract_light (d : AttrDict) : Except PyError (Option Value) :=
  match d "entity_id" with
  | some (.strList []) => .error .indexError
  | some (.strList (x :: _)) => .ok (some (.str x))
  | v => .ok v

/-- `any(attr in event.data for attr in LIGHT_ATTRIBUTES)`. -/
def has_custom_attributes (d : AttrDict) : Bool :=
  LIGHT_ATTRIBUTES.any (fun a => (d a).isSome)

/-- `turn_on_override`: resolve the (first) named light; when it
belongs to a group and the caller supplied none of the recognized
light attributes, build `\x7b**event.data, **attributes\x7d` (the group's
resolved attributes overwrite the caller's entries on collision);
otherwise keep the data unchanged. The result is the list of data
dicts forwarded to the original turn-on handler: exactly one forward
on every non-raising path. -/
def turn_on_override (states : States) (cfg : Config) (d : AttrDict) :
    Except PyError (List AttrDict) :=
  match extract_light d with
  | .error e => .error e
  | .ok lv =>
    let group := match lv with
      | some (.str s) => get_group_by_light cfg s
      | _ => none
    match lv, group, has_custom_attributes d with
    | some (.str s), some g, false =>
      match get_light_settings states g s with
      | none => .error .attributeError
      | some settings => .ok [dictUnion d settings.attributes]
    | _, _, _ => .ok [d]

/-! ## World evolution for the toggle involution claim -/

/-- Effect of one emitted command on the external light states,
assuming commands set each named light's state accordingly. -/
def applyCmd (states : States) : Cmd → States
  | .turnOn l _ => fun e => if e = l then some "on" else states e
  | .turnOff l => fun e => if e = l then some "off" else states e
  | .turnOffList ls => fun e => if ls.contains e then some "off" else states e

/-- Effect of a command list, applied in emission order. -/
def applyCmds (states : States) (cs : List Cmd) : States :=
  cs.foldl applyCmd states

/-! ## Further spec-side definitions -/

/-- Spec side for C4: the brightness base used for scaling, "resolved
brightness, or 255 if the resolved attributes have no brightness". -/
def spec_base_brightness (st : LightSettings) : ℚ :=
  match st.attributes "brightness" with
  | some (.num q) => q
  | _ => 255

/-- Spec side for C4: the resolved attributes with brightness replaced
by the base scaled by `pct/100`. -/
def spec_scaled_attrs (st : LightSettings) (p : ℚ) : AttrDict :=
  fun k =>
    if k = "brightness" then some (.num (spec_base_brightness st * p / 100))
    else st.attributes k

/-- Decidable side condition for C4: the resolved brightness attribute,
when present, is numeric (otherwise the Python scaling raises). -/
def brightness_numeric (ost : Option LightSettings) : Bool :=
  match ost with
  | none => true
  | some st =>
    match st.attributes "brightness" with
    | none => true
    | some (.num _) => true
    | some _ => false

/-! ## Concrete fixtures for witnesses and counterexamples -/

/-- A group whose `relax` preset carries a non-attribute default
(`transition`) colliding with caller data in the override claim. -/
def grpTr : Group :=
  { id := "g", preset := "sel", lights := ["a", "b"],
    presets := presetsOf
      [("relax", specOf [("defaults", dictOf [("transition", .str "long")])])] }

def cfgTr : Config := [grpTr]

def stTr : States := statesOf [("sel", "Relax")]

/-- Caller data: names light `a`, no recognized light attribute, and a
`transition` value different from the preset default. -/
def dTr : AttrDict := dictOf [("entity_id", .str "a"), ("transition", .str "short")]

/-- A group whose active preset sets the unrecognized state `banana`. -/
def grpBan : Group :=
  { id := "g", preset := "sel", lights := ["a", "b"],
    presets := presetsOf
      [("p", specOf [("defaults", dictOf [("state", .str "banana")])])] }

/-- The same group with `on_if_anything_on` in place of `banana`. -/
def grpOiao : Group :=
  { id := "g", preset := "sel", lights := ["a", "b"],
    presets := presetsOf
      [("p", specOf [("defaults", dictOf [("state", .str "on_if_anything_on")])])] }

/-- States for the banana scenario: selector on preset `p`, light `a`
without recorded state, light `b` on. -/
def stBan : States := statesOf [("sel", "p"), ("b", "on")]

/-- States with the selector on preset `p` and no light state recorded. -/
def stOff : States := statesOf [("sel", "p")]

/-- A group with an empty defaults dict for its only preset `p`. -/
def grpTog : Group :=
  { id := "g", preset := "sel", lights := ["a", "b"],
    presets := presetsOf [("p", specOf [("defaults", emptyDict)])] }

def cfgTog : Config := [grpTog]

/-- Toggle scenario start: light `a` on, light `b` off. -/
def stTog : States := statesOf [("sel", "p"), ("a", "on")]

/-- First toggle of `grpTog` from `stTog`. -/
def togRun1 : HandlerResult := service_light_toggle stTog cfgTog ⟨"g", none⟩

/-- States after the first toggle's commands take effect. -/
def stTog1 : States := applyCmds stTog togRun1.cmds

/-- Second toggle. -/
def togRun2 : HandlerResult := service_light_toggle stTog1 cfgTog ⟨"g", none⟩

/-- States after the second toggle's commands take effect. -/
def stTog2 : States := applyCmds stTog1 togRun2.cmds

/-- Two groups sharing the preset selector `sel`, for the failure
propagation scenario. -/
def grpE1 : Group :=
  { id := "g1", preset := "sel", lights := ["a"], presets := presetsOf [] }

def grpE2 : Group :=
  { id := "g2", preset := "sel", lights := ["b"], presets := presetsOf [] }

def cfgErr : Config := [grpE1, grpE2]

/-- An empty state store: the selector has no recorded state. -/
def stEmpty : States := statesOf []

/-- States with the selector holding a value naming no configured
preset. -/
def stUnknown : States := statesOf [("sel", "unknown")]

def cfgBan : Config := [grpBan]

/-- The merged dict for light `a` of `grpBan` under `stBan`. -/
def mergedBan : AttrDict := (preset_merged stBan grpBan "a").getD emptyDict

/-- The settings `get_light_settings` computes for light `a` of
`grpTr` under `stTr`. -/
def settingsTr : LightSettings :=
  (get_light_settings stTr grpTr "a").getD ⟨emptyDict, .str ""⟩

/-- The turn-on command the group turn-on loop emits for one light
(`none` when the light's policy is `off`), assuming the settings
resolve. -/
def light_on_cmd (states : States) (g : Group) (l : String) : Option Cmd :=
  (get_light_settings states g l).bind (fun st =>
    if st.state = .str "off" then none else some (.turnOn l st.attributes))

/-! ## Helper lemmas -/

theorem sets_color_iff (d : AttrDict) :
    sets_color d = true ↔ spec_has_color_key d := by
  simp [sets_color, spec_has_color_key, List.any_eq_true]

theorem dictUnion_eq_spec (d o : AttrDict) (k : String) :
    dictUnion d o k = spec_shallow_merge d o k := by
  unfold dictUnion spec_shallow_merge
  cases o k <;> simp

theorem dropColorKeys_eq_spec (d : AttrDict) (k : String) :
    dropColorKeys d k = spec_remove_colors d k := by
  unfold dropColorKeys spec_remove_colors
  by_cases h : k ∈ COLOR_ATTRIBUTES
  · simp [h]
  · simp [h]

theorem sets_color_both_iff (d o : AttrDict) :
    (sets_color d && sets_color o) = true ↔
      (spec_has_color_key d ∧ spec_has_color_key o) := by
  rw [Bool.and_eq_true, sets_color_iff, sets_color_iff]

theorem runLights_eq_filterMap (f : String → Except PyError (Option Cmd))
    (g : String → Option Cmd) (ls : List String)
    (h : ∀ l ∈ ls, f l = .ok (g l)) :
    runLights f ls = ⟨ls.filterMap g, none⟩ := by
  induction ls with
  | nil => rfl
  | cons a as ih =>
    have ha := h a (List.mem_cons_self a as)
    rw [runLights, ha, ih (fun l hl => h l (List.mem_cons_of_mem a hl))]
    cases hga : g a <;> simp [List.filterMap_cons, hga, Option.toList]

theorem get_light_settings_isSome (states : States) (g : Group) (l : String)
    (h : (states g.preset).isSome = true) :
    (get_light_settings states g l).isSome = true := by
  unfold get_light_settings preset_merged
  cases hs : states g.preset
  · rw [hs] at h
    simp at h
  · simp [hs]

theorem update_cond_iff (v : Value) (aon : Bool) :
    ((v == Value.str "on" || (v == Value.str "on_if_anything_on" && aon))
        = true) ↔
      (v = .str "on" ∨ (v = .str "on_if_anything_on" ∧ aon = true)) := by
  simp [Bool.or_eq_true, Bool.and_eq_true, beq_iff_eq]

theorem matching_isEmpty_iff (cfg : Config) (e : Option String) :
    (get_group_by_preset_id cfg e).isEmpty = true ↔
      ¬∃ g ∈ cfg, e = some g.preset := by
  simp [get_group_by_preset_id, List.isEmpty_iff, List.filter_eq_nil_iff]

/-! ## Claim theorems -/

/-- **C1.** `merge_light_attributes` drops the color keys of `defaults`
exactly when both `defaults` and `overrides` each bind at least one
color key and then shallow-merges with `overrides` winning; when at
most one side binds a color key it is the plain shallow merge with
`overrides` winning. Stated pointwise at every key. -/
theorem C1_merge_light_attributes (d o : AttrDict) (k : String) :
    merge_light_attributes d o k =
      if spec_has_color_key d ∧ spec_has_color_key o then
        spec_shallow_merge (spec_remove_colors d) o k
      else
        spec_shallow_merge d o k := by
  unfold merge_light_attributes
  by_cases h : spec_has_color_key d ∧ spec_has_color_key o
  · rw [if_pos ((sets_color_both_iff d o).mpr h), if_pos h,
      dictUnion_eq_spec]
    unfold spec_shallow_merge
    by_cases hk : (o k).isSome
    · simp [hk]
    · simp [hk, dropColorKeys_eq_spec]
  · rw [if_neg (fun hb => h ((sets_color_both_iff d o).mp hb)), if_neg h]
    exact dictUnion_eq_spec d o k

/-- **C5.** When the selector's lower-cased value names no configured
preset, the effective settings are empty attributes and the
`on_if_anything_on` policy, and no error is raised. -/
theorem C5_unknown_preset (states : States) (g : Group) (l sel : String)
    (h1 : states g.preset = some sel)
    (h2 : (g.presets (pyLower sel)).isNone = true) :
    ∃ st, get_light_settings states g l = some st ∧
      (∀ k, st.attributes k = none) ∧
      st.state = .str "on_if_anything_on" := by
  rw [Option.isNone_iff_eq_none] at h2
  have hmerge : ∀ k, merge_light_attributes emptyDict emptyDict k = none :=
    fun k => rfl
  have he : get_light_settings states g l = some
      ⟨fun k => if k = "state" then none
          else merge_light_attributes emptyDict emptyDict k,
        .str "on_if_anything_on"⟩ := by
    unfold get_light_settings preset_merged
    rw [h1]
    show some _ = some _
    rw [h2]
    rfl
  refine ⟨_, he, fun k => ?_, rfl⟩
  by_cases hk : k = "state"
  · simp [hk]
  · simp [hk, hmerge k]

/-- Witness for C5 at a concrete unknown preset value. -/
theorem C5_unknown_preset_witness :
    (get_light_settings stUnknown grpBan "x").map (fun s => s.state) =
        some (.str "on_if_anything_on") ∧
      (get_light_settings stUnknown grpBan "x").map
          (fun s => s.attributes "brightness") = some none := by
  obtain ⟨st, he, hattr, hstate⟩ :=
    C5_unknown_preset stUnknown grpBan "x" "unknown" (by decide) (by decide)
  rw [he]
  simp [hstate, hattr "brightness"]

/-- Counterexample for C8: two groups share the selector `sel`, the
selector has no recorded state, and a state-changed event for `sel`
with a defined old state arrives; the reaction raises
`AttributeError` and emits no command at all, so the second group's
update never runs, contrary to the claim. -/
theorem C8_counterexample :
    (on_state_changed stEmpty cfgErr ⟨some "sel", true⟩).err =
        some PyError.attributeError ∧
      (on_state_changed stEmpty cfgErr ⟨some "sel", true⟩).cmds.length = 0 := by
  decide

/-- **C8 (amended).** When the first matching group's preset selector
has no recorded state (and the group has at least one light), the
resolution failure is not caught: the `AttributeError` escapes the
reaction, which emits nothing, and later matching groups are not
updated. -/
theorem C8_selector_missing (states : States) (cfg : Config) (ev : Event)
    (g : Group) (gs : List Group)
    (h1 : get_group_by_preset_id cfg ev.entity_id = g :: gs)
    (h2 : ev.has_old_state = true)
    (h3 : states g.preset = none)
    (h4 : g.lights ≠ []) :
    on_state_changed states cfg ev = ⟨[], some .attributeError⟩ := by
  obtain ⟨l, ls, hl⟩ := List.exists_cons_of_ne_nil h4
  simp only [on_state_changed, h1, h2, List.isEmpty_cons, Bool.not_false,
    Bool.and_true, Bool.and_self, if_true]
  simp only [runGroups, group_lights_update, hl, runLights, update_light,
    get_light_settings, preset_merged, h3]
  rfl

/-- Witness for the amended C8 at the concrete two-group scenario. -/
theorem C8_selector_missing_witness :
    on_state_changed stEmpty cfgErr ⟨some "sel", true⟩ =
      ⟨[], some .attributeError⟩ :=
  C8_selector_missing stEmpty cfgErr ⟨some "sel", true⟩ grpE1 [grpE2]
    rfl rfl rfl (by decide)

/-- Counterexample for C9: with no group named `nope`, the group-on
command raises a `TypeError` out of the handler instead of logging
and aborting. -/
theorem C9_counterexample :
    (get_group_by_name cfgErr "nope").isNone = true ∧
      (service_light_on stEmpty cfgErr ⟨"nope", none⟩).err =
        some PyError.typeError := by
  decide

/-- **C9 (amended).** A group command with an unknown group name finds
no group (the lookup returns the not-found value), and the handler
then raises a `TypeError` by subscripting the missing group: the
command aborts with an escaped exception and emits nothing, for all
three group commands. -/
theorem C9_unknown_group (states : States) (cfg : Config) (data : CallData)
    (h : (get_group_by_name cfg data.light_group).isNone = true) :
    service_light_on states cfg data = ⟨[], some .typeError⟩ ∧
      service_light_off states cfg data = ⟨[], some .typeError⟩ ∧
      service_light_toggle states cfg data = ⟨[], some .typeError⟩ := by
  rw [Option.isNone_iff_eq_none] at h
  refine ⟨?_, ?_, ?_⟩ <;>
    simp [service_light_on, service_light_off, service_light_toggle, h]

/-- Witness for the amended C9 at the concrete unknown name. -/
theorem C9_unknown_group_witness :
    service_light_off stEmpty cfgErr ⟨"nope", none⟩ =
      ⟨[], some .typeError⟩ :=
  (C9_unknown_group stEmpty cfgErr ⟨"nope", none⟩ (by decide)).2.1

/-- **C2.** The preset-changed reaction: it is a no-op unless the
event's entity id equals some group's selector and the event carries a
defined old state; when triggered it runs the group update over all
matching groups in order; `anything_on` holds exactly when some group
light is on; and per light, an on light is turned off under the `off`
policy and turned on with the resolved attributes under any other
policy, while an off light is turned on exactly under the `on` policy
or the `on_if_anything_on` policy with something on. -/
theorem C2_preset_changed (states : States) (cfg : Config) (ev : Event) :
    ((¬∃ g ∈ cfg, ev.entity_id = some g.preset) ∨ ev.has_old_state = false →
      on_state_changed states cfg ev = ⟨[], none⟩) ∧
    ((∃ g ∈ cfg, ev.entity_id = some g.preset) → ev.has_old_state = true →
      on_state_changed states cfg ev =
        runGroups (group_lights_update states)
          (get_group_by_preset_id cfg ev.entity_id)) ∧
    (∀ g : Group, is_anything_on states g = true ↔
      ∃ l ∈ g.lights, is_light_on states l = true) ∧
    (∀ (aon : Bool) (g : Group) (l : String) (st : LightSettings),
      get_light_settings states g l = some st →
        update_light states aon g l = .ok (
          if is_light_on states l = true then
            if st.state = .str "off" then some (.turnOff l)
            else some (.turnOn l st.attributes)
          else if st.state = .str "on" ∨
              (st.state = .str "on_if_anything_on" ∧ aon = true) then
            some (.turnOn l st.attributes)
          else none)) := by
  refine ⟨?_, ?_, ?_, ?_⟩
  · intro h
    unfold on_state_changed
    cases hold : ev.has_old_state
    · simp
    · have hne : ¬∃ g ∈ cfg, ev.entity_id = some g.preset := by
        rcases h with h | h
        · exact h
        · rw [hold] at h
          exact absurd h (by simp)
      have hemp : (get_group_by_preset_id cfg ev.entity_id).isEmpty = true :=
        (matching_isEmpty_iff cfg ev.entity_id).mpr hne
      simp [hemp]
  · intro hex hold
    unfold on_state_changed
    have hemp : (get_group_by_preset_id cfg ev.entity_id).isEmpty = false := by
      cases he : (get_group_by_preset_id cfg ev.entity_id).isEmpty
      · rfl
      · exact absurd hex ((matching_isEmpty_iff cfg ev.entity_id).mp he)
    simp [hemp, hold]
  · intro g
    simp [is_anything_on, List.any_eq_true]
  · intro aon g l st h
    simp only [update_light, h]
    by_cases hon : is_light_on states l = true
    · by_cases hoff : st.state = .str "off"
      · simp [hon, hoff]
      · simp [hon, hoff, beq_iff_eq]
    · rw [if_neg hon, if_neg hon]
      by_cases hcond : st.state = .str "on" ∨
          (st.state = .str "on_if_anything_on" ∧ aon = true)
      · rw [if_pos ((update_cond_iff st.state aon).mpr hcond), if_pos hcond]
      · rw [if_neg (fun hb => hcond ((update_cond_iff st.state aon).mp hb)),
          if_neg hcond]

/-- Witness for C2: an event with no defined old state is ignored. -/
theorem C2_preset_changed_witness :
    on_state_changed stBan cfgBan ⟨some "sel", false⟩ = ⟨[], none⟩ :=
  (C2_preset_changed stBan cfgBan ⟨some "sel", false⟩).1 (Or.inr rfl)

/-- Counterexample for C3: the caller turns on light `a` (member of
`grpTr`) with no recognized light attribute key, so injection happens;
on the colliding key `transition` the forwarded request carries the
injected preset value, not the caller-supplied one, contradicting
"the caller-supplied value wins over the injected value". -/
theorem C3_counterexample :
    (match turn_on_override stTr cfgTr dTr with
      | .ok [f] => f "transition"
      | _ => none) = some (Value.str "long") ∧
      dTr "transition" = some (Value.str "short") ∧
      has_custom_attributes dTr = false := by
  decide

/-- **C3 (amended).** The intercepted turn-on handler injects exactly
when the named light belongs to a group and the request carries none
of the nine recognized attribute keys; the forwarded data is
`\x7b**event.data, **attributes\x7d`, so on a key collision the injected
value overwrites the caller's (injected keys absent from the resolved
attributes fall back to the caller's data); without injection the data
is forwarded unchanged; in both cases exactly one call is forwarded. -/
theorem C3_turn_on_override (states : States) (cfg : Config) (d : AttrDict)
    (s : String) (hl : extract_light d = .ok (some (.str s))) :
    (∀ g, get_group_by_light cfg s = some g → has_custom_attributes d = false →
      ∀ st, get_light_settings states g s = some st →
        turn_on_override states cfg d = .ok [dictUnion d st.attributes] ∧
        (∀ k, (st.attributes k).isSome = true →
          dictUnion d st.attributes k = st.attributes k) ∧
        (∀ k, st.attributes k = none → dictUnion d st.attributes k = d k)) ∧
    ((get_group_by_light cfg s).isNone = true ∨ has_custom_attributes d = true →
      turn_on_override states cfg d = .ok [d]) := by
  constructor
  · intro g hg hca st hst
    refine ⟨?_, ?_, ?_⟩
    · simp only [turn_on_override, hl, hg, hca, hst]
    · intro k hk
      unfold dictUnion
      cases hak : st.attributes k
      · rw [hak] at hk
        simp at hk
      · simp
    · intro k hk
      unfold dictUnion
      rw [hk]
  · intro hcase
    rcases hcase with hnone | hca
    · rw [Option.isNone_iff_eq_none] at hnone
      simp only [turn_on_override, hl, hnone]
    · cases hg : get_group_by_light cfg s
      · simp only [turn_on_override, hl, hg]
      · simp only [turn_on_override, hl, hg, hca]

/-- Witness for the amended C3 at the concrete collision scenario. -/
theorem C3_turn_on_override_witness :
    turn_on_override stTr cfgTr dTr = .ok [dictUnion dTr settingsTr.attributes] :=
  ((C3_turn_on_override stTr cfgTr dTr "a" rfl).1
    grpTr rfl (by decide) settingsTr rfl).1

/-- **C4.** With a resolvable selector, the group turn-on command
emits one turn-on per light with the resolved attributes, exactly for
those lights whose policy is not `off`, and raises nothing; when the
call carries a numeric `preset_brightness_pct` (and every resolved
brightness is numeric or absent), the emitted brightness is the
resolved brightness (base 255 when absent) times `pct/100`. -/
theorem C4_group_turn_on (states : States) (g : Group)
    (h : (states g.preset).isSome = true) :
    group_lights_turn_on states g none =
      ⟨g.lights.filterMap (fun l =>
        (get_light_settings states g l).bind (fun st =>
          if st.state = .str "off" then none
          else some (.turnOn l st.attributes))), none⟩ ∧
    (∀ p : ℚ, (∀ l ∈ g.lights,
        brightness_numeric (get_light_settings states g l) = true) →
      group_lights_turn_on states g (some (.num p)) =
        ⟨g.lights.filterMap (fun l =>
          (get_light_settings states g l).bind (fun st =>
            if st.state = .str "off" then none
            else some (.turnOn l (spec_scaled_attrs st p)))), none⟩) := by
  constructor
  · apply runLights_eq_filterMap
    intro l _
    have hs := get_light_settings_isSome states g l h
    obtain ⟨st, hst⟩ := Option.isSome_iff_exists.mp hs
    simp only [turn_on_light_settings, hst, Option.bind_some]
    by_cases hoff : st.state = .str "off"
    · simp [hoff]
    · simp [hoff, beq_iff_eq]
  · intro p hb
    apply runLights_eq_filterMap
    intro l hl
    have hs := get_light_settings_isSome states g l h
    obtain ⟨st, hst⟩ := Option.isSome_iff_exists.mp hs
    have hbn := hb l hl
    rw [hst] at hbn
    simp only [turn_on_light_settings, hst, Option.bind_some]
    have hattrs : ∀ q, st.attributes "brightness" = some (.num q) ∨
        (st.attributes "brightness" = none ∧ q = 255) →
        (fun k => if k = "brightness"
            then some (.num (q * p / 100)) else st.attributes k)
          = spec_scaled_attrs st p := by
      intro q hq
      funext k
      unfold spec_scaled_attrs spec_base_brightness
      rcases hq with hq | ⟨hq, h255⟩
      · rw [hq]
      · rw [hq, h255]
    cases hbr : st.attributes "brightness" with
    | none =>
      simp only [hbr, Option.getD_none, scaled_brightness, Option.bind_some]
      rw [hattrs 255 (Or.inr ⟨hbr, rfl⟩)]
      by_cases hoff : st.state = .str "off"
      · simp [hoff]
      · simp [hoff, beq_iff_eq]
    | some v =>
      cases v with
      | num q =>
        simp only [hbr, Option.getD_some, scaled_brightness, Option.bind_some]
        rw [hattrs q (Or.inl hbr)]
        by_cases hoff : st.state = .str "off"
        · simp [hoff]
        · simp [hoff, beq_iff_eq]
      | str s =>
        exfalso
        simp [brightness_numeric, hbr] at hbn
      | arr a =>
        exfalso
        simp [brightness_numeric, hbr] at hbn
      | strList a =>
        exfalso
        simp [brightness_numeric, hbr] at hbn

/-- Witness for C4 at a concrete group (empty defaults, brightness
absent), both without and with a 50 percent scaling parameter. -/
theorem C4_group_turn_on_witness :
    ((stOff grpTog.preset).isSome = true ∧
      (∀ l ∈ grpTog.lights,
        brightness_numeric (get_light_settings stOff grpTog l) = true)) ∧
    group_lights_turn_on stOff grpTog none =
      ⟨grpTog.lights.filterMap (fun l =>
        (get_light_settings stOff grpTog l).bind (fun st =>
          if st.state = .str "off" then none
          else some (.turnOn l st.attributes))), none⟩ ∧
    group_lights_turn_on stOff grpTog (some (.num 50)) =
      ⟨grpTog.lights.filterMap (fun l =>
        (get_light_settings stOff grpTog l).bind (fun st =>
          if st.state = .str "off" then none
          else some (.turnOn l (spec_scaled_attrs st 50)))), none⟩ :=
  ⟨⟨by decide, by decide⟩,
    (C4_group_turn_on stOff grpTog (by decide)).1,
    (C4_group_turn_on stOff grpTog (by decide)).2 50 (by decide)⟩

/-- Counterexample for C6: a preset whose `state` value is `banana`
is kept verbatim as the policy (it is none of the three recognized
values), and it does not behave like `on_if_anything_on`: in the
update reaction with light `b` on and light `a` off, the `banana`
group emits one command while the same group with
`on_if_anything_on` emits two. -/
theorem C6_counterexample :
    (get_light_settings stBan grpBan "a").map (fun s => s.state) =
        some (.str "banana") ∧
      ((Value.str "banana" ≠ .str "on") ∧ (Value.str "banana" ≠ .str "off") ∧
        (Value.str "banana" ≠ .str "on_if_anything_on")) ∧
      (group_lights_update stBan grpBan).cmds.length = 1 ∧
      (group_lights_update stBan grpOiao).cmds.length = 2 := by
  decide

/-- **C6 (amended).** `get_light_settings` removes the `state` key from
the merged attributes and defaults the policy to `on_if_anything_on`
when the key is absent; but the popped value is not validated: an
unrecognized value is kept verbatim as the policy, and in the update
reaction such a policy turns an on light on and leaves an off light
alone (unlike `on_if_anything_on`, which also turns an off light on
when something is on), while the group turn-on path treats it like
any non-`off` policy. -/
theorem C6_state_handling (states : States) (g : Group) (l : String)
    (merged : AttrDict) (hm : preset_merged states g l = some merged) :
    ∃ st, get_light_settings states g l = some st ∧
      st.attributes "state" = none ∧
      (merged "state" = none → st.state = .str DEFAULT_STATE) ∧
      (∀ v, merged "state" = some v → st.state = v) ∧
      ((st.state ≠ .str "on" ∧ st.state ≠ .str "off" ∧
          st.state ≠ .str "on_if_anything_on") →
        (∀ aon : Bool, update_light states aon g l =
            .ok (if is_light_on states l = true
              then some (.turnOn l st.attributes) else none)) ∧
        turn_on_light_settings states g none l =
          .ok (some (.turnOn l st.attributes))) := by
  have he : get_light_settings states g l = some
      ⟨fun k => if k = "state" then none else merged k,
        (merged "state").getD (.str DEFAULT_STATE)⟩ := by
    unfold get_light_settings
    rw [hm]
    rfl
  refine ⟨_, he, by simp, ?_, ?_, ?_⟩
  · intro h0
    simp [h0]
  · intro v hv
    simp [hv]
  · rintro ⟨hn1, hn2, hn3⟩
    constructor
    · intro aon
      simp only [update_light, he]
      by_cases hon : is_light_on states l = true
      · rw [if_pos hon, if_pos hon, if_neg]
        simp only [beq_iff_eq]
        exact hn2
      · rw [if_neg hon, if_neg hon, if_neg]
        rw [Bool.or_eq_true, Bool.and_eq_true]
        push_neg
        refine ⟨by simp [beq_iff_eq]; exact hn1, fun hc => ?_⟩
        rw [beq_iff_eq] at hc
        exact absurd hc hn3
    · simp only [turn_on_light_settings, he]
      rw [if_neg]
      simp only [beq_iff_eq]
      exact hn2

/-- Witness for the amended C6 at the concrete `banana` preset. -/
theorem C6_state_handling_witness :
    (get_light_settings stBan grpBan "a").map (fun s => s.attributes "state") =
        some none ∧
      update_light stBan false grpBan "a" = .ok none := by
  obtain ⟨st, he, h1, _h2, h3, h4⟩ :=
    C6_state_handling stBan grpBan "a" mergedBan rfl
  have hst : st.state = .str "banana" := h3 (.str "banana") (by decide)
  constructor
  · rw [he]
    simp [h1]
  · have hb := (h4 (by rw [hst]; refine ⟨by decide, by decide, by decide⟩)).1 false
    rw [hb, if_neg (by decide : ¬ is_light_on stBan "a" = true)]

/-- **C10.** A light with no recorded state is falsy in `is_light_on`
(the raw Python value is `None`), contributes nothing to
`anything_on`, a group all of whose lights lack recorded state is
toggled on (the toggle dispatches to the group turn-on), and in the
update reaction such a light is handled by the light-off branch. -/
theorem C10_missing_state (states : States) (l : String)
    (h : states l = none) :
    is_light_on_raw states l = none ∧
      truthy (is_light_on_raw states l) = false ∧
      (∀ g : Group, is_anything_on states g = true ↔
        ∃ l2 ∈ g.lights, l2 ≠ l ∧ is_light_on states l2 = true) ∧
      (∀ (cfg : Config) (g : Group) (d : CallData),
        get_group_by_name cfg d.light_group = some g →
        (∀ l2 ∈ g.lights, states l2 = none) →
        service_light_toggle states cfg d = group_lights_turn_on states g none) ∧
      (∀ (aon : Bool) (g : Group) (st : LightSettings),
        get_light_settings states g l = some st →
          update_light states aon g l = .ok (
            if st.state = .str "on" ∨
                (st.state = .str "on_if_anything_on" ∧ aon = true) then
              some (.turnOn l st.attributes)
            else none)) := by
  have hraw : is_light_on_raw states l = none := by
    unfold is_light_on_raw
    rw [h]
    rfl
  have hoff : is_light_on states l = false := by
    unfold is_light_on
    rw [hraw]
    rfl
  refine ⟨hraw, by rw [hraw]; rfl, ?_, ?_, ?_⟩
  · intro g
    simp only [is_anything_on, List.any_eq_true]
    constructor
    · rintro ⟨l2, hmem, hl2⟩
      refine ⟨l2, hmem, fun heq => ?_, hl2⟩
      rw [heq, hoff] at hl2
      exact absurd hl2 (by simp)
    · rintro ⟨l2, hmem, _, hl2⟩
      exact ⟨l2, hmem, hl2⟩
  · intro cfg g d hname hall
    have hany : is_anything_on states g = false := by
      rw [Bool.eq_false_iff]
      intro hc
      simp only [is_anything_on, List.any_eq_true] at hc
      obtain ⟨l2, hmem, hl2⟩ := hc
      unfold is_light_on is_light_on_raw at hl2
      rw [hall l2 hmem] at hl2
      exact absurd hl2 (by simp [truthy])
    simp only [service_light_toggle, hname, hany]
    rfl
  · intro aon g st hst
    simp only [update_light, hst, hoff]
    rw [if_neg (by simp)]
    by_cases hcond : st.state = .str "on" ∨
        (st.state = .str "on_if_anything_on" ∧ aon = true)
    · rw [if_pos ((update_cond_iff st.state aon).mpr hcond), if_pos hcond]
    · rw [if_neg (fun hb => hcond ((update_cond_iff st.state aon).mp hb)),
        if_neg hcond]

/-- Witness for C10: light `a` of `grpTog` has no recorded state in
`stOff`, and the whole group being stateless dispatches the toggle to
the turn-on branch. -/
theorem C10_missing_state_witness :
    is_light_on_raw stOff "a" = none ∧
      service_light_toggle stOff cfgTog ⟨"g", none⟩ =
        group_lights_turn_on stOff grpTog none := by
  have H := C10_missing_state stOff "a" rfl
  exact ⟨H.1, H.2.2.2.1 cfgTog grpTog ⟨"g", none⟩ rfl (by decide)⟩

/-! ## Helper lemmas for the toggle involution claim -/

theorem turn_on_cmds_eq (states : States) (g : Group)
    (h : (states g.preset).isSome = true) :
    group_lights_turn_on states g none =
      ⟨g.lights.filterMap (light_on_cmd states g), none⟩ := by
  apply runLights_eq_filterMap
  intro l _
  obtain ⟨st, hst⟩ :=
    Option.isSome_iff_exists.mp (get_light_settings_isSome states g l h)
  simp only [turn_on_light_settings, light_on_cmd, hst, Option.bind_some]
  by_cases hoff : st.state = .str "off"
  · simp [hoff]
  · simp [hoff, beq_iff_eq]

theorem light_on_cmd_of_ne_off (states : States) (g : Group) (l : String)
    (st : LightSettings) (hst : get_light_settings states g l = some st)
    (hoff : st.state ≠ .str "off") :
    light_on_cmd states g l = some (.turnOn l st.attributes) := by
  unfold light_on_cmd
  rw [hst]
  show (if st.state = Value.str "off" then none
    else some (Cmd.turnOn l st.attributes)) = _
  rw [if_neg hoff]

theorem light_on_cmd_of_off (states : States) (g : Group) (l : String)
    (st : LightSettings) (hst : get_light_settings states g l = some st)
    (hoff : st.state = .str "off") :
    light_on_cmd states g l = none := by
  unfold light_on_cmd
  rw [hst]
  show (if st.state = Value.str "off" then none
    else some (Cmd.turnOn l st.attributes)) = _
  rw [if_pos hoff]

theorem light_on_cmd_shape (states : States) (g : Group) (l : String)
    (c : Cmd) (h : light_on_cmd states g l = some c) :
    ∃ a, c = Cmd.turnOn l a := by
  unfold light_on_cmd at h
  cases hst : get_light_settings states g l with
  | none =>
    rw [hst] at h
    cases h
  | some st =>
    rw [hst] at h
    have h2 : (if st.state = Value.str "off" then (none : Option Cmd)
        else some (Cmd.turnOn l st.attributes)) = some c := h
    by_cases hoff : st.state = .str "off"
    · rw [if_pos hoff] at h2
      cases h2
    · rw [if_neg hoff] at h2
      injection h2 with h2
      exact ⟨st.attributes, h2.symm⟩

theorem get_light_settings_congr (states1 states : States) (g : Group)
    (l : String) (h : states1 g.preset = states g.preset) :
    get_light_settings states1 g l = get_light_settings states g l := by
  unfold get_light_settings preset_merged
  rw [h]

theorem applyCmds_cons (s : States) (c : Cmd) (cs : List Cmd) :
    applyCmds s (c :: cs) = applyCmds (applyCmd s c) cs := rfl

theorem applyCmds_preserves_on (e : String) :
    ∀ (cs : List Cmd) (s : States),
      (∀ c ∈ cs, ∃ l a, c = Cmd.turnOn l a) → s e = some "on" →
      applyCmds s cs e = some "on" := by
  intro cs
  induction cs with
  | nil =>
    intro s _ hon
    exact hon
  | cons c cs ih =>
    intro s hall hon
    obtain ⟨l, a, hc⟩ := hall c (List.mem_cons_self c cs)
    subst hc
    rw [applyCmds_cons]
    refine ih _ (fun c2 hc2 => hall c2 (List.mem_cons_of_mem _ hc2)) ?_
    by_cases he : e = l
    · simp [applyCmd, he]
    · simp [applyCmd, he, hon]

theorem applyCmds_turnOn_mem (e : String) :
    ∀ (cs : List Cmd) (s : States),
      (∀ c ∈ cs, ∃ l a, c = Cmd.turnOn l a) →
      (∃ a, Cmd.turnOn e a ∈ cs) →
      applyCmds s cs e = some "on" := by
  intro cs
  induction cs with
  | nil =>
    intro s _ hmem
    obtain ⟨a, ha⟩ := hmem
    cases ha
  | cons c cs ih =>
    intro s hall hmem
    rw [applyCmds_cons]
    obtain ⟨a, ha⟩ := hmem
    rcases List.mem_cons.mp ha with hc | hc
    · apply applyCmds_preserves_on e cs _
        (fun c2 hc2 => hall c2 (List.mem_cons_of_mem _ hc2))
      rw [← hc]
      simp [applyCmd]
    · exact ih _ (fun c2 hc2 => hall c2 (List.mem_cons_of_mem _ hc2)) ⟨a, hc⟩

theorem applyCmds_untouched (e : String) :
    ∀ (cs : List Cmd) (s : States),
      (∀ c ∈ cs, ∃ l a, c = Cmd.turnOn l a ∧ l ≠ e) →
      applyCmds s cs e = s e := by
  intro cs
  induction cs with
  | nil =>
    intro s _
    rfl
  | cons c cs ih =>
    intro s h
    obtain ⟨l, a, hc, hne⟩ := h c (List.mem_cons_self c cs)
    subst hc
    rw [applyCmds_cons]
    rw [ih _ (fun c2 hc2 => h c2 (List.mem_cons_of_mem _ hc2))]
    simp only [applyCmd]
    rw [if_neg (fun hee : e = l => hne hee.symm)]

theorem applyCmd_offList_mem (s : States) (ls : List String) (e : String)
    (h : e ∈ ls) : applyCmd s (.turnOffList ls) e = some "off" := by
  simp [applyCmd, h]

theorem applyCmd_offList_not_mem (s : States) (ls : List String) (e : String)
    (h : e ∉ ls) : applyCmd s (.turnOffList ls) e = s e := by
  simp [applyCmd, h]

theorem is_light_on_of_eq (s : States) (l : String) (v : String)
    (h : s l = some v) : is_light_on s l = (v == "on") := by
  simp [is_light_on, is_light_on_raw, truthy, h]

theorem anything_off_all_off (s : States) (g : Group)
    (h : is_anything_on s g = false) :
    ∀ l ∈ g.lights, is_light_on s l = false := by
  intro l hl
  cases hb : is_light_on s l
  · rfl
  · exfalso
    have hc : is_anything_on s g = true := by
      simp only [is_anything_on, List.any_eq_true]
      exact ⟨l, hl, hb⟩
    rw [h] at hc
    cases hc

theorem all_off_anything_off (s : States) (g : Group)
    (h : ∀ l ∈ g.lights, is_light_on s l = false) :
    is_anything_on s g = false := by
  cases hb : is_anything_on s g
  · rfl
  · exfalso
    simp only [is_anything_on, List.any_eq_true] at hb
    obtain ⟨l, hl, hon⟩ := hb
    rw [h l hl] at hon
    cases hon

/-- Counterexample for C7: group `grpTog` starts with light `a` on and
light `b` off; both toggles complete without error, yet after toggling
twice light `b` is on — double toggling does not restore every light's
original on/off state. -/
theorem C7_counterexample :
    togRun1.err = none ∧ togRun2.err = none ∧
      is_light_on stTog "b" = false ∧ is_light_on stTog2 "b" = true := by
  decide

/-- **C7 (amended).** The toggle command dispatches on `anything_on`
(the disjunction of the group lights' on-states): group turn-off when
something is on, group turn-on otherwise. Under the idempotent command
semantics, toggling twice restores every light's on/off state when no
group light was initially on; when something was initially on, a light
ends up on after two toggles exactly when its resolved policy is not
`off` — which need not match its original state. -/
theorem C7_toggle (states : States) (cfg : Config) (data : CallData)
    (g : Group)
    (h1 : get_group_by_name cfg data.light_group = some g)
    (h2 : (states g.preset).isSome = true)
    (h3 : g.preset ∉ g.lights) :
    (∀ s : States,
      (is_anything_on s g = true →
        service_light_toggle s cfg data = group_lights_turn_off g) ∧
      (is_anything_on s g = false →
        service_light_toggle s cfg data = group_lights_turn_on s g none) ∧
      (is_anything_on s g = true ↔
        ∃ l ∈ g.lights, is_light_on s l = true)) ∧
    (is_anything_on states g = false →
      ∀ l ∈ g.lights,
        is_light_on
          (applyCmds (applyCmds states (service_light_toggle states cfg data).cmds)
            (service_light_toggle
              (applyCmds states (service_light_toggle states cfg data).cmds)
              cfg data).cmds) l
          = is_light_on states l) ∧
    (is_anything_on states g = true →
      ∀ l ∈ g.lights, ∀ st, get_light_settings states g l = some st →
        (is_light_on
            (applyCmds (applyCmds states (service_light_toggle states cfg data).cmds)
              (service_light_toggle
                (applyCmds states (service_light_toggle states cfg data).cmds)
                cfg data).cmds) l
          = true ↔ st.state ≠ .str "off")) := by
  have hdisp : ∀ s : States,
      (is_anything_on s g = true →
        service_light_toggle s cfg data = group_lights_turn_off g) ∧
      (is_anything_on s g = false →
        service_light_toggle s cfg data = group_lights_turn_on s g none) := by
    intro s
    constructor
    · intro hs
      simp [service_light_toggle, h1, hs]
    · intro hs
      simp [service_light_toggle, h1, hs]
  refine ⟨fun s => ⟨(hdisp s).1, (hdisp s).2, ?_⟩, ?_, ?_⟩
  · simp [is_anything_on, List.any_eq_true]
  · -- nothing initially on: double toggle restores the on/off state
    intro hoff0 l hl
    set S1 := applyCmds states (service_light_toggle states cfg data).cmds
      with hS1def
    set S2 := applyCmds S1 (service_light_toggle S1 cfg data).cmds with hS2def
    have hr1 : service_light_toggle states cfg data =
        ⟨g.lights.filterMap (light_on_cmd states g), none⟩ := by
      rw [(hdisp states).2 hoff0, turn_on_cmds_eq states g h2]
    have hS1 : S1 = applyCmds states (g.lights.filterMap (light_on_cmd states g)) := by
      rw [hS1def, hr1]
    have hshape1 : ∀ c ∈ g.lights.filterMap (light_on_cmd states g),
        ∃ l2 a, c = Cmd.turnOn l2 a := by
      intro c hc
      obtain ⟨l2, _, hfl2⟩ := List.mem_filterMap.mp hc
      obtain ⟨a, ha⟩ := light_on_cmd_shape states g l2 c hfl2
      exact ⟨l2, a, ha⟩
    by_cases hP : ∃ l0 ∈ g.lights, (light_on_cmd states g l0).isSome = true
    · obtain ⟨l0, hl0, hsome⟩ := hP
      obtain ⟨c0, hc0⟩ := Option.isSome_iff_exists.mp hsome
      obtain ⟨a0, ha0⟩ := light_on_cmd_shape states g l0 c0 hc0
      have hmem0 : Cmd.turnOn l0 a0 ∈ g.lights.filterMap (light_on_cmd states g) :=
        List.mem_filterMap.mpr ⟨l0, hl0, by rw [hc0, ha0]⟩
      have hon0 : S1 l0 = some "on" := by
        rw [hS1]
        exact applyCmds_turnOn_mem l0 _ states hshape1 ⟨a0, hmem0⟩
      have hany1 : is_anything_on S1 g = true := by
        simp only [is_anything_on, List.any_eq_true]
        exact ⟨l0, hl0, by rw [is_light_on_of_eq S1 l0 "on" hon0]; rfl⟩
      have hr2 : service_light_toggle S1 cfg data = group_lights_turn_off g :=
        (hdisp S1).1 hany1
      have hS2 : S2 = applyCmd S1 (.turnOffList g.lights) := by
        rw [hS2def, hr2]
        rfl
      have hS2l : S2 l = some "off" := by
        rw [hS2]
        exact applyCmd_offList_mem S1 g.lights l hl
      rw [is_light_on_of_eq S2 l "off" hS2l,
        anything_off_all_off states g hoff0 l hl]
      rfl
    · have hnone : ∀ l0 ∈ g.lights, light_on_cmd states g l0 = none := by
        intro l0 hl0
        cases hc : light_on_cmd states g l0
        · rfl
        · exact absurd ⟨l0, hl0, by rw [hc]; rfl⟩ hP
      have hnil : g.lights.filterMap (light_on_cmd states g) = [] :=
        List.filterMap_eq_nil_iff.mpr hnone
      have hS1e : S1 = states := by
        rw [hS1, hnil]
        rfl
      have hr2 : service_light_toggle S1 cfg data = ⟨[], none⟩ := by
        rw [hS1e, (hdisp states).2 hoff0, turn_on_cmds_eq states g h2, hnil]
      have hS2e : S2 = states := by
        rw [hS2def, hr2, hS1e]
        rfl
      rw [hS2e]
  · -- something initially on: after two toggles, on iff policy not off
    intro hon0 l hl st hstg
    set S1 := applyCmds states (service_light_toggle states cfg data).cmds
      with hS1def
    set S2 := applyCmds S1 (service_light_toggle S1 cfg data).cmds with hS2def
    have hr1 : service_light_toggle states cfg data = group_lights_turn_off g :=
      (hdisp states).1 hon0
    have hS1 : S1 = applyCmd states (.turnOffList g.lights) := by
      rw [hS1def, hr1]
      rfl
    have hsel1 : S1 g.preset = states g.preset := by
      rw [hS1]
      exact applyCmd_offList_not_mem states g.lights g.preset h3
    have h2s : (S1 g.preset).isSome = true := by
      rw [hsel1]
      exact h2
    have hglseq : ∀ l2, get_light_settings S1 g l2 = get_light_settings states g l2 :=
      fun l2 => get_light_settings_congr S1 states g l2 hsel1
    have hcmdeq : light_on_cmd S1 g = light_on_cmd states g := by
      funext l2
      unfold light_on_cmd
      rw [hglseq l2]
    have hany1 : is_anything_on S1 g = false := by
      apply all_off_anything_off
      intro l2 hl2
      have : S1 l2 = some "off" := by
        rw [hS1]
        exact applyCmd_offList_mem states g.lights l2 hl2
      rw [is_light_on_of_eq S1 l2 "off" this]
      rfl
    have hr2 : service_light_toggle S1 cfg data =
        ⟨g.lights.filterMap (light_on_cmd states g), none⟩ := by
      rw [(hdisp S1).2 hany1, turn_on_cmds_eq S1 g h2s, hcmdeq]
    have hS2 : S2 = applyCmds S1 (g.lights.filterMap (light_on_cmd states g)) := by
      rw [hS2def, hr2]
    have hshape2 : ∀ c ∈ g.lights.filterMap (light_on_cmd states g),
        ∃ l2 a, c = Cmd.turnOn l2 a := by
      intro c hc
      obtain ⟨l2, _, hfl2⟩ := List.mem_filterMap.mp hc
      obtain ⟨a, ha⟩ := light_on_cmd_shape states g l2 c hfl2
      exact ⟨l2, a, ha⟩
    by_cases hoffst : st.state = .str "off"
    · have hnotarget : ∀ c ∈ g.lights.filterMap (light_on_cmd states g),
          ∃ l2 a, c = Cmd.turnOn l2 a ∧ l2 ≠ l := by
        intro c hc
        obtain ⟨l2, hl2mem, hfl2⟩ := List.mem_filterMap.mp hc
        obtain ⟨a, ha⟩ := light_on_cmd_shape states g l2 c hfl2
        refine ⟨l2, a, ha, fun heq => ?_⟩
        subst heq
        rw [light_on_cmd_of_off states g l2 st hstg hoffst] at hfl2
        cases hfl2
      have hS2l : S2 l = S1 l := by
        rw [hS2]
        exact applyCmds_untouched l _ S1 hnotarget
      have hS1l : S1 l = some "off" := by
        rw [hS1]
        exact applyCmd_offList_mem states g.lights l hl
      rw [is_light_on_of_eq S2 l "off" (by rw [hS2l, hS1l])]
      constructor
      · intro hx
        cases hx
      · intro hx
        exact absurd hoffst hx
    · have hmem : Cmd.turnOn l st.attributes ∈
          g.lights.filterMap (light_on_cmd states g) :=
        List.mem_filterMap.mpr
          ⟨l, hl, light_on_cmd_of_ne_off states g l st hstg hoffst⟩
      have hS2l : S2 l = some "on" := by
        rw [hS2]
        exact applyCmds_turnOn_mem l _ S1 hshape2 ⟨st.attributes, hmem⟩
      rw [is_light_on_of_eq S2 l "on" hS2l]
      constructor
      · intro _
        exact hoffst
      · intro _
        rfl

/-- Witness for the amended C7: the concrete group `grpTog` with no
light initially on; the double toggle leaves light `a` off, matching
its initial state. -/
theorem C7_toggle_witness :
    is_light_on
        (applyCmds (applyCmds stOff (service_light_toggle stOff cfgTog ⟨"g", none⟩).cmds)
          (service_light_toggle
            (applyCmds stOff (service_light_toggle stOff cfgTog ⟨"g", none⟩).cmds)
            cfgTog ⟨"g", none⟩).cmds) "a"
      = is_light_on stOff "a" := by
  have H := C7_toggle stOff cfgTog ⟨"g", none⟩ grpTog rfl (by decide) (by decide)
  exact H.2.1 (by decide) "a" (by decide)

end LightPresets
